import Mathlib

/-!
# The bochs-vbe display driver

A shallow embedding of `system/udev/bochs-vbe/bochs-vbe.c`.

* Machine integers are natural numbers or integers; a store through
  `pcie_write16` keeps the low 16 bits of the value.
* Every call into the platform (a register store, `mx_set_framebuffer`,
  `mx_handle_close`, the PCI protocol, the device framework, the allocator) is
  recorded, in program order, in a trace of `Event`s.
* `assert` is taken as compiled in (no `NDEBUG`): a failed assertion stops the
  function. An unsigned division by zero is undefined in C and stops the
  function as well. Both are `Fault`s.
* Constants that come from headers outside the translated file are the fields
  of `Consts`, a parameter of every function that uses one.
-/

namespace BochsVbe

/-! ## Constants from headers outside the driver file -/

/-- Values of the preprocessor constants the driver uses and never defines:
the seven pixel formats named by the `switch` in `mx_display_format_to_bpp`
and the three status codes named by the driver. -/
structure Consts where
  MX_DISPLAY_FORMAT_RGB_565 : Nat
  MX_DISPLAY_FORMAT_RGB_332 : Nat
  MX_DISPLAY_FORMAT_RGB_2220 : Nat
  MX_DISPLAY_FORMAT_ARGB_8888 : Nat
  MX_DISPLAY_FORMAT_RGB_x888 : Nat
  MX_DISPLAY_FORMAT_MONO_1 : Nat
  MX_DISPLAY_FORMAT_MONO_8 : Nat
  NO_ERROR : Int
  ERR_NOT_SUPPORTED : Int
  ERR_NO_MEMORY : Int
  deriving Repr, DecidableEq

/-- The seven `case` labels of the `switch` in `mx_display_format_to_bpp`,
in source order. -/
def Consts.caseLabels (c : Consts) : List Nat :=
  [c.MX_DISPLAY_FORMAT_RGB_565, c.MX_DISPLAY_FORMAT_RGB_332,
   c.MX_DISPLAY_FORMAT_RGB_2220, c.MX_DISPLAY_FORMAT_ARGB_8888,
   c.MX_DISPLAY_FORMAT_RGB_x888, c.MX_DISPLAY_FORMAT_MONO_1,
   c.MX_DISPLAY_FORMAT_MONO_8]

/-- A C `switch` only compiles when its `case` labels are pairwise different. -/
def Consts.LabelsDistinct (c : Consts) : Prop := c.caseLabels.Nodup

instance (c : Consts) : Decidable c.LabelsDistinct := by
  unfold Consts.LabelsDistinct; infer_instance

/-- One admissible assignment of the constants (formats numbered 0 to 6 in the
order of the `switch`, `NO_ERROR` zero, the error codes negative), used where a
concrete instance is needed. -/
def sampleConsts : Consts where
  MX_DISPLAY_FORMAT_RGB_565 := 0
  MX_DISPLAY_FORMAT_RGB_332 := 1
  MX_DISPLAY_FORMAT_RGB_2220 := 2
  MX_DISPLAY_FORMAT_ARGB_8888 := 3
  MX_DISPLAY_FORMAT_RGB_x888 := 4
  MX_DISPLAY_FORMAT_MONO_1 := 5
  MX_DISPLAY_FORMAT_MONO_8 := 6
  NO_ERROR := 0
  ERR_NOT_SUPPORTED := -2
  ERR_NO_MEMORY := -4

/-! ## Data model -/

/-- Modelled from the spec: `mx_display_info_t` is declared in
`ddk/protocol/display.h`, which is not among the sources; the driver and the
spec use its four members format, width, height and stride (32-bit unsigned). -/
structure mx_display_info_t where
  format : Nat
  width : Nat
  height : Nat
  stride : Nat
  deriving Repr, DecidableEq

/-- The `bochs_vbe_device_t` record. Pointers are addresses, `0` is `NULL`.
The embedded framework object `device` is only handed to `device_init` and
`device_add`, which appear as events. -/
structure bochs_vbe_device_t where
  regs : Nat
  regs_size : Nat
  regs_handle : Int
  framebuffer : Nat
  framebuffer_size : Nat
  framebuffer_handle : Int
  info : mx_display_info_t
  deriving Repr, DecidableEq

/-- The cache policies passed to `map_mmio`. -/
inductive CachePolicy where
  | MX_CACHE_POLICY_UNCACHED_DEVICE
  | MX_CACHE_POLICY_WRITE_COMBINING
  deriving Repr, DecidableEq

/-- One call that leaves the driver. -/
inductive Event where
  /-- a 16-bit store: address and the stored value -/
  | write16 (addr val : Nat)
  /-- the call `mx_set_framebuffer(base, size, format, width, height, stride)` -/
  | set_framebuffer (base size format width height stride : Nat)
  /-- the call `mx_handle_close(h)` -/
  | handle_close (h : Int)
  /-- the call `device_get_protocol(dev, MX_PROTOCOL_PCI, ..)` -/
  | device_get_protocol
  /-- the call `pci->claim_device(dev)` -/
  | claim_device
  /-- the call `pci->map_mmio(dev, bar, policy, ..)` -/
  | map_mmio (bar : Nat) (policy : CachePolicy)
  /-- the call `calloc(1, sizeof(bochs_vbe_device_t))` -/
  | calloc
  /-- the call `free(device)` -/
  | free
  /-- the call `device_init(&device->device, ..)` -/
  | device_init
  /-- the call `device_add(&device->device, dev)` -/
  | device_add
  deriving Repr, DecidableEq

/-- Ways a function stops without returning. -/
inductive Fault where
  /-- an `assert` whose condition is false -/
  | assertion
  /-- an integer division whose divisor is zero -/
  | division_by_zero
  deriving Repr, DecidableEq

/-- What a driver entry point leaves behind: the device record, the calls it
made, and either the returned value or the fault that stopped it. -/
structure Run (α : Type) where
  dev : bochs_vbe_device_t
  trace : List Event
  ret : Except Fault α

/-! ## Register interface -/

def BOCHS_VBE_DISPI_ID : Nat := 0x0
def BOCHS_VBE_DISPI_XRES : Nat := 0x1
def BOCHS_VBE_DISPI_YRES : Nat := 0x2
def BOCHS_VBE_DISPI_BPP : Nat := 0x3
def BOCHS_VBE_DISPI_ENABLE : Nat := 0x4
def BOCHS_VBE_DISPI_BANK : Nat := 0x5
def BOCHS_VBE_DISPI_VIRT_WIDTH : Nat := 0x6
def BOCHS_VBE_DISPI_VIRT_HEIGHT : Nat := 0x7
def BOCHS_VBE_DISPI_X_OFFSET : Nat := 0x8
def BOCHS_VBE_DISPI_Y_OFFSET : Nat := 0x9
def BOCHS_VBE_DISPI_VIDEO_MEMORY_64K : Nat := 0xa

/-- Modelled from the spec: `pcie_write16` is defined in `hw/pci.h`, which is
not among the sources; it stores a 16-bit value at an address, so the value
that reaches the register is the low 16 bits of the argument. -/
def pcie_write16 (addr val : Nat) : Event :=
  Event.write16 addr (val % 65536)

/-- The `bochs_vbe_dispi_write(base, reg, val)` macro. -/
def bochs_vbe_dispi_write (base reg val : Nat) : Event :=
  pcie_write16 (base + (0x500 + (reg <<< 1))) val

/-- Conversion of a 32-bit `unsigned` to `int` (two's complement). -/
def unsignedToInt (n : Nat) : Int :=
  if n % 4294967296 < 2147483648 then (n % 4294967296 : Nat)
  else ((n % 4294967296 : Nat) : Int) - 4294967296

/-- The function `mx_display_format_to_bpp`: `unsigned bpp` is set by the
`switch` (`-1` wraps to `2^32 - 1`) and returned as `int`. -/
def mx_display_format_to_bpp (c : Consts) (format : Nat) : Int :=
  let bpp : Nat :=
    if format = c.MX_DISPLAY_FORMAT_RGB_565 then 16
    else if format = c.MX_DISPLAY_FORMAT_RGB_332 then 8
    else if format = c.MX_DISPLAY_FORMAT_RGB_2220 then 6
    else if format = c.MX_DISPLAY_FORMAT_ARGB_8888 then 32
    else if format = c.MX_DISPLAY_FORMAT_RGB_x888 then 24
    else if format = c.MX_DISPLAY_FORMAT_MONO_1 then 1
    else if format = c.MX_DISPLAY_FORMAT_MONO_8 then 8
    else 4294967295
  unsignedToInt bpp

/-- A format is supported when it passes `assert(bpp >= 0)`. -/
def supported (c : Consts) (format : Nat) : Prop :=
  0 ≤ mx_display_format_to_bpp c format

instance (c : Consts) (format : Nat) : Decidable (supported c format) := by
  unfold supported; infer_instance

/-! ## The mode programmer -/

/-- The function `set_hw_mode`: the calls it makes and whether it ran to its
end. The six stores before `VIRT_HEIGHT` are made before the quotient
`framebuffer_size / stride` is evaluated. -/
def set_hw_mode (c : Consts) (dev : bochs_vbe_device_t) :
    List Event × Except Fault Unit :=
  let bpp := mx_display_format_to_bpp c dev.info.format
  if bpp < 0 then ([], Except.error Fault.assertion)
  else
    let staged : List Event :=
      [ bochs_vbe_dispi_write dev.regs BOCHS_VBE_DISPI_ENABLE 0,
        bochs_vbe_dispi_write dev.regs BOCHS_VBE_DISPI_BPP bpp.toNat,
        bochs_vbe_dispi_write dev.regs BOCHS_VBE_DISPI_XRES dev.info.width,
        bochs_vbe_dispi_write dev.regs BOCHS_VBE_DISPI_YRES dev.info.height,
        bochs_vbe_dispi_write dev.regs BOCHS_VBE_DISPI_BANK 0,
        bochs_vbe_dispi_write dev.regs BOCHS_VBE_DISPI_VIRT_WIDTH dev.info.stride ]
    if dev.info.stride = 0 then (staged, Except.error Fault.division_by_zero)
    else
      (staged ++
        [ bochs_vbe_dispi_write dev.regs BOCHS_VBE_DISPI_VIRT_HEIGHT
            (dev.framebuffer_size / dev.info.stride),
          bochs_vbe_dispi_write dev.regs BOCHS_VBE_DISPI_X_OFFSET 0,
          bochs_vbe_dispi_write dev.regs BOCHS_VBE_DISPI_Y_OFFSET 0,
          bochs_vbe_dispi_write dev.regs BOCHS_VBE_DISPI_ENABLE 0x41,
          Event.set_framebuffer dev.framebuffer dev.framebuffer_size
            dev.info.format dev.info.width dev.info.height dev.info.stride ],
       Except.ok ())

/-! ## The display protocol -/

/-- The function `bochs_vbe_set_mode`: copy the descriptor into the device,
program the hardware, return `NO_ERROR`. -/
def bochs_vbe_set_mode (c : Consts) (dev : bochs_vbe_device_t)
    (info : mx_display_info_t) : Run Int :=
  let vdev := { dev with info := info }
  match set_hw_mode c vdev with
  | (t, Except.error f) => { dev := vdev, trace := t, ret := Except.error f }
  | (t, Except.ok _) => { dev := vdev, trace := t, ret := Except.ok c.NO_ERROR }

/-- The function `bochs_vbe_get_mode`: the returned pair is the status and the
descriptor copied to the caller. -/
def bochs_vbe_get_mode (c : Consts) (dev : bochs_vbe_device_t) :
    Run (Int × mx_display_info_t) :=
  { dev := dev, trace := [], ret := Except.ok (c.NO_ERROR, dev.info) }

/-- The function `bochs_vbe_get_framebuffer`: the returned pair is the status
and the pointer stored through `framebuffer`. -/
def bochs_vbe_get_framebuffer (c : Consts) (dev : bochs_vbe_device_t) :
    Run (Int × Nat) :=
  { dev := dev, trace := [], ret := Except.ok (c.NO_ERROR, dev.framebuffer) }

/-! ## The device protocol -/

/-- The function `bochs_vbe_release`. Both guards test the mapped pointer. -/
def bochs_vbe_release (c : Consts) (dev : bochs_vbe_device_t) : Run Int :=
  let (vdev, t1) :=
    if dev.regs ≠ 0 then
      ({ dev with regs_handle := -1 }, [Event.handle_close dev.regs_handle])
    else (dev, [])
  let (vdev, t2) :=
    if vdev.framebuffer ≠ 0 then
      ({ vdev with framebuffer_handle := -1 },
        t1 ++ [Event.handle_close vdev.framebuffer_handle])
    else (vdev, t1)
  { dev := vdev, trace := t2, ret := Except.ok c.NO_ERROR }

/-! ## The driver object -/

/-- What one `map_mmio` call hands back: the returned handle and the two
values stored through its out-parameters. -/
structure MmioReply where
  handle : Int
  ptr : Nat
  size : Nat
  deriving Repr, DecidableEq

/-- The answers of the platform to the calls `bochs_vbe_bind` makes. -/
structure BindEnv where
  /-- return value of `device_get_protocol` -/
  device_get_protocol : Int
  /-- return value of `pci->claim_device` -/
  claim_device : Int
  /-- whether `calloc` returns a non-null pointer -/
  calloc_ok : Bool
  /-- result of `map_mmio` for BAR 2 -/
  map_regs : MmioReply
  /-- result of `map_mmio` for BAR 0 -/
  map_framebuffer : MmioReply
  /-- return value of `device_init` -/
  device_init : Int
  deriving Repr, DecidableEq

/-- Outcome of `bochs_vbe_bind`: its calls, its return value, and the device
handed to `device_add`, if any. -/
structure BindRun where
  trace : List Event
  ret : Except Fault Int
  added : Option bochs_vbe_device_t

/-- The record `calloc` returns: all bytes zero. -/
def zeroed : bochs_vbe_device_t :=
  { regs := 0, regs_size := 0, regs_handle := 0,
    framebuffer := 0, framebuffer_size := 0, framebuffer_handle := 0,
    info := { format := 0, width := 0, height := 0, stride := 0 } }

/-- The function `bochs_vbe_bind`. The `fail` label frees the record and
returns `status`. -/
def bochs_vbe_bind (c : Consts) (env : BindEnv) : BindRun :=
  if env.device_get_protocol ≠ 0 then
    { trace := [Event.device_get_protocol],
      ret := Except.ok c.ERR_NOT_SUPPORTED, added := none }
  else
    let status := env.claim_device
    let t := [Event.device_get_protocol, Event.claim_device]
    if status < 0 then { trace := t, ret := Except.ok status, added := none }
    else
      let t := t ++ [Event.calloc]
      if !env.calloc_ok then
        { trace := t, ret := Except.ok c.ERR_NO_MEMORY, added := none }
      else
        let device : bochs_vbe_device_t := zeroed
        -- map register window
        let device : bochs_vbe_device_t :=
          { device with
              regs_handle := env.map_regs.handle,
              regs := env.map_regs.ptr,
              regs_size := env.map_regs.size }
        let t := t ++ [Event.map_mmio 2 CachePolicy.MX_CACHE_POLICY_UNCACHED_DEVICE]
        if device.regs_handle < 0 then
          { trace := t ++ [Event.free], ret := Except.ok device.regs_handle, added := none }
        else
          -- map framebuffer window
          let device : bochs_vbe_device_t :=
            { device with
                framebuffer_handle := env.map_framebuffer.handle,
                framebuffer := env.map_framebuffer.ptr,
                framebuffer_size := env.map_framebuffer.size }
          let t := t ++ [Event.map_mmio 0 CachePolicy.MX_CACHE_POLICY_WRITE_COMBINING]
          if device.framebuffer_handle < 0 then
            { trace := t ++ [Event.free],
              ret := Except.ok device.framebuffer_handle, added := none }
          else
            let status := env.device_init
            let t := t ++ [Event.device_init]
            if status ≠ 0 then
              { trace := t ++ [Event.free], ret := Except.ok status, added := none }
            else
              let device : bochs_vbe_device_t :=
                { device with
                    info := { format := c.MX_DISPLAY_FORMAT_RGB_565,
                              width := 1024, height := 768, stride := 1024 } }
              match set_hw_mode c device with
              | (t2, Except.error f) =>
                { trace := t ++ t2, ret := Except.error f, added := none }
              | (t2, Except.ok _) =>
                { trace := t ++ t2 ++ [Event.device_add],
                  ret := Except.ok c.NO_ERROR, added := some device }

/-! ## Reading a trace -/

/-- The register stores of a trace, in order. -/
def registerWrites (t : List Event) : List Event :=
  t.filter fun e => match e with
    | Event.write16 _ _ => true
    | _ => false

/-- The values stored, in order, to register `reg` of the bank at `base`. -/
def valuesWritten (base reg : Nat) (t : List Event) : List Nat :=
  t.filterMap fun e => match e with
    | Event.write16 a v => if a = base + (0x500 + (reg <<< 1)) then some v else none
    | _ => none

/-- The handles passed to `mx_handle_close`, in order. -/
def handlesClosed (t : List Event) : List Int :=
  t.filterMap fun e => match e with
    | Event.handle_close h => some h
    | _ => none

/-- A sample device: register window at `0x10000` (handle 3), a 16 MiB
framebuffer window at `0x1000000` (handle 4), currently in the default mode. -/
def sampleDevice : bochs_vbe_device_t :=
  { regs := 0x10000, regs_size := 0x1000, regs_handle := 3,
    framebuffer := 0x1000000, framebuffer_size := 16777216, framebuffer_handle := 4,
    info := { format := 0, width := 1024, height := 768, stride := 1024 } }

/-- The register sequence as the specification lists it, with the values taken
at full width: ENABLE, BPP, XRES, YRES, BANK, VIRT_WIDTH, VIRT_HEIGHT,
X_OFFSET, Y_OFFSET, ENABLE, then the framebuffer notification. -/
def specSequence (dev : bochs_vbe_device_t) (bpp : Nat) : List Event :=
  [ Event.write16 (dev.regs + 0x508) 0,
    Event.write16 (dev.regs + 0x506) bpp,
    Event.write16 (dev.regs + 0x502) dev.info.width,
    Event.write16 (dev.regs + 0x504) dev.info.height,
    Event.write16 (dev.regs + 0x50a) 0,
    Event.write16 (dev.regs + 0x50c) dev.info.stride,
    Event.write16 (dev.regs + 0x50e) (dev.framebuffer_size / dev.info.stride),
    Event.write16 (dev.regs + 0x510) 0,
    Event.write16 (dev.regs + 0x512) 0,
    Event.write16 (dev.regs + 0x508) 0x41,
    Event.set_framebuffer dev.framebuffer dev.framebuffer_size
      dev.info.format dev.info.width dev.info.height dev.info.stride ]

/-- A mode descriptor of 64 by 64 pixels at 8 bits per pixel (`RGB_332` under
`sampleConsts`), stride 64. -/
def smallMode : mx_display_info_t :=
  { format := 1, width := 64, height := 64, stride := 64 }

/-- A mode descriptor of 200 by 100 pixels at 16 bits per pixel (`RGB_565`
under `sampleConsts`), stride 200. -/
def mode200 : mx_display_info_t :=
  { format := 0, width := 200, height := 100, stride := 200 }

/-- A descriptor with a supported format and every extent zero. -/
def emptyMode : mx_display_info_t :=
  { format := 0, width := 0, height := 0, stride := 0 }

/-- A descriptor of 640 by 480 pixels whose format value 99 is none of the
seven formats of `sampleConsts`. -/
def unknownFormatMode : mx_display_info_t :=
  { format := 99, width := 640, height := 480, stride := 640 }

/-- The mode of the scenario: `RGB_565`, 1024 by 768, stride 1024. -/
def scenarioMode : mx_display_info_t :=
  { format := 0, width := 1024, height := 768, stride := 1024 }

/-- The device of the scenario: a framebuffer window of `1024*768*2` bytes. -/
def scenarioDevice : bochs_vbe_device_t :=
  { sampleDevice with framebuffer_size := 1024 * 768 * 2 }

/-- Platform answers where the claim and the register window succeed (handle 3)
and mapping the framebuffer window fails with status `-1`. -/
def framebufferMapFails : BindEnv :=
  { device_get_protocol := 0, claim_device := 0, calloc_ok := true,
    map_regs := { handle := 3, ptr := 0x10000, size := 0x1000 },
    map_framebuffer := { handle := -1, ptr := 0, size := 0 },
    device_init := 0 }

/-! ## Lemmas -/

theorem unsignedToInt_small (n : Nat) (h : n < 2147483648) : unsignedToInt n = n := by
  have h1 : n % 4294967296 = n := Nat.mod_eq_of_lt (by omega)
  simp [unsignedToInt, h1, h]

theorem unsignedToInt_max : unsignedToInt 4294967295 = -1 := by
  simp [unsignedToInt]

/-- The result is `-1` or one of the six bit depths. -/
theorem bpp_range (c : Consts) (f : Nat) :
    mx_display_format_to_bpp c f = -1 ∨
      mx_display_format_to_bpp c f ∈ ([1, 6, 8, 16, 24, 32] : List Int) := by
  unfold mx_display_format_to_bpp
  split_ifs <;> simp [unsignedToInt]

/-- A supported format has a bit depth that fits in 16 bits. -/
theorem bpp_toNat_lt (c : Consts) (f : Nat) :
    (mx_display_format_to_bpp c f).toNat < 65536 := by
  rcases bpp_range c f with h | h
  · rw [h]; decide
  · simp only [List.mem_cons, List.mem_singleton, List.not_mem_nil, or_false] at h
    rcases h with h | h | h | h | h | h <;> rw [h] <;> decide

/-- A run of `set_hw_mode` that passes the assertion with a non-zero stride:
the ten stores and the notification, each store keeping 16 bits. -/
theorem set_hw_mode_ok (c : Consts) (dev : bochs_vbe_device_t)
    (hf : supported c dev.info.format) (hs : dev.info.stride ≠ 0) :
    set_hw_mode c dev =
      ([ Event.write16 (dev.regs + 0x508) 0,
         Event.write16 (dev.regs + 0x506) (mx_display_format_to_bpp c dev.info.format).toNat,
         Event.write16 (dev.regs + 0x502) (dev.info.width % 65536),
         Event.write16 (dev.regs + 0x504) (dev.info.height % 65536),
         Event.write16 (dev.regs + 0x50a) 0,
         Event.write16 (dev.regs + 0x50c) (dev.info.stride % 65536),
         Event.write16 (dev.regs + 0x50e) (dev.framebuffer_size / dev.info.stride % 65536),
         Event.write16 (dev.regs + 0x510) 0,
         Event.write16 (dev.regs + 0x512) 0,
         Event.write16 (dev.regs + 0x508) 0x41,
         Event.set_framebuffer dev.framebuffer dev.framebuffer_size
           dev.info.format dev.info.width dev.info.height dev.info.stride ],
       Except.ok ()) := by
  have hb : ¬ mx_display_format_to_bpp c dev.info.format < 0 := not_lt.mpr hf
  have hm := Nat.mod_eq_of_lt (bpp_toNat_lt c dev.info.format)
  simp [set_hw_mode, hb, hs, bochs_vbe_dispi_write, pcie_write16, hm,
    BOCHS_VBE_DISPI_ENABLE, BOCHS_VBE_DISPI_BPP, BOCHS_VBE_DISPI_XRES,
    BOCHS_VBE_DISPI_YRES, BOCHS_VBE_DISPI_BANK, BOCHS_VBE_DISPI_VIRT_WIDTH,
    BOCHS_VBE_DISPI_VIRT_HEIGHT, BOCHS_VBE_DISPI_X_OFFSET, BOCHS_VBE_DISPI_Y_OFFSET,
    Nat.shiftLeft_eq]

/-- A run of `set_hw_mode` on an unsupported format stops at the assertion
before any call. -/
theorem set_hw_mode_unsupported (c : Consts) (dev : bochs_vbe_device_t)
    (hf : ¬ supported c dev.info.format) :
    set_hw_mode c dev = ([], Except.error Fault.assertion) := by
  have hb : mx_display_format_to_bpp c dev.info.format < 0 := not_le.mp hf
  simp [set_hw_mode, hb]

/-- On a device with both windows mapped, `bochs_vbe_release` closes the two
stored handles, and a second call closes the value `-1` twice: the guards test
`regs` and `framebuffer`, which the first call leaves as they are. -/
theorem release_then_release (c : Consts) (dev : bochs_vbe_device_t)
    (hr : dev.regs ≠ 0) (hb : dev.framebuffer ≠ 0) :
    handlesClosed (bochs_vbe_release c dev).trace =
      [dev.regs_handle, dev.framebuffer_handle] ∧
    handlesClosed (bochs_vbe_release c (bochs_vbe_release c dev).dev).trace = [-1, -1] := by
  simp [bochs_vbe_release, hr, hb, handlesClosed]

/-- Whenever the claim, the allocation and the register window succeed and
mapping the framebuffer window fails, `bochs_vbe_bind` returns the failed
handle after exactly these calls, none of which is `mx_handle_close`. -/
theorem bind_framebuffer_failure (c : Consts) (env : BindEnv)
    (h0 : env.device_get_protocol = 0) (h1 : 0 ≤ env.claim_device)
    (h2 : env.calloc_ok = true) (h3 : 0 ≤ env.map_regs.handle)
    (h4 : env.map_framebuffer.handle < 0) :
    (bochs_vbe_bind c env).ret = Except.ok env.map_framebuffer.handle ∧
    (bochs_vbe_bind c env).trace =
      [ Event.device_get_protocol, Event.claim_device, Event.calloc,
        Event.map_mmio 2 CachePolicy.MX_CACHE_POLICY_UNCACHED_DEVICE,
        Event.map_mmio 0 CachePolicy.MX_CACHE_POLICY_WRITE_COMBINING,
        Event.free ] ∧
    (bochs_vbe_bind c env).added = none := by
  simp [bochs_vbe_bind, h0, not_lt.mpr h1, h2, not_lt.mpr h3, h4]

/-! ## The format table -/

/-- C9. For every format value `mx_display_format_to_bpp` returns `-1` or one
of the bit depths 1, 6, 8, 16, 24, 32; the seven formats of the `switch` map to
16, 8, 6, 32, 24, 1, 8; every other value maps to `-1`; so the assertion
`bpp >= 0` passes exactly on the seven formats. -/
theorem mx_display_format_to_bpp_table (c : Consts) (hd : c.LabelsDistinct) :
    (∀ f, mx_display_format_to_bpp c f = -1 ∨
        mx_display_format_to_bpp c f ∈ ([1, 6, 8, 16, 24, 32] : List Int)) ∧
    mx_display_format_to_bpp c c.MX_DISPLAY_FORMAT_RGB_565 = 16 ∧
    mx_display_format_to_bpp c c.MX_DISPLAY_FORMAT_RGB_332 = 8 ∧
    mx_display_format_to_bpp c c.MX_DISPLAY_FORMAT_RGB_2220 = 6 ∧
    mx_display_format_to_bpp c c.MX_DISPLAY_FORMAT_ARGB_8888 = 32 ∧
    mx_display_format_to_bpp c c.MX_DISPLAY_FORMAT_RGB_x888 = 24 ∧
    mx_display_format_to_bpp c c.MX_DISPLAY_FORMAT_MONO_1 = 1 ∧
    mx_display_format_to_bpp c c.MX_DISPLAY_FORMAT_MONO_8 = 8 ∧
    (∀ f, f ∉ c.caseLabels → mx_display_format_to_bpp c f = -1) ∧
    (∀ f, supported c f ↔ f ∈ c.caseLabels) := by
  simp only [Consts.LabelsDistinct, Consts.caseLabels, List.nodup_cons, List.mem_cons,
    List.mem_singleton, List.not_mem_nil, or_false, not_or, List.nodup_nil, and_true] at hd
  obtain ⟨⟨h12, h13, h14, h15, h16, h17⟩, ⟨h23, h24, h25, h26, h27⟩,
    ⟨h34, h35, h36, h37⟩, ⟨h45, h46, h47⟩, ⟨h56, h57⟩, h67, _⟩ := hd
  refine ⟨bpp_range c, ?_, ?_, ?_, ?_, ?_, ?_, ?_, ?_, ?_⟩
  · simp [mx_display_format_to_bpp, unsignedToInt]
  · simp [mx_display_format_to_bpp, unsignedToInt, Ne.symm h12]
  · simp [mx_display_format_to_bpp, unsignedToInt, Ne.symm h13, Ne.symm h23]
  · simp [mx_display_format_to_bpp, unsignedToInt, Ne.symm h14, Ne.symm h24, Ne.symm h34]
  · simp [mx_display_format_to_bpp, unsignedToInt, Ne.symm h15, Ne.symm h25, Ne.symm h35,
      Ne.symm h45]
  · simp [mx_display_format_to_bpp, unsignedToInt, Ne.symm h16, Ne.symm h26, Ne.symm h36,
      Ne.symm h46, Ne.symm h56]
  · simp [mx_display_format_to_bpp, unsignedToInt, Ne.symm h17, Ne.symm h27, Ne.symm h37,
      Ne.symm h47, Ne.symm h57, Ne.symm h67]
  · intro f hf
    simp only [Consts.caseLabels, List.mem_cons, List.mem_singleton, List.not_mem_nil,
      or_false, not_or] at hf
    obtain ⟨a1, a2, a3, a4, a5, a6, a7⟩ := hf
    simp [mx_display_format_to_bpp, unsignedToInt, a1, a2, a3, a4, a5, a6, a7]
  · intro f
    simp only [supported, Consts.caseLabels, List.mem_cons, List.mem_singleton,
      List.not_mem_nil, or_false, mx_display_format_to_bpp]
    split_ifs <;> simp_all [unsignedToInt]

/-- C9, at the sample constants. -/
theorem mx_display_format_to_bpp_table_witness :
    sampleConsts.LabelsDistinct ∧
    ((∀ f, mx_display_format_to_bpp sampleConsts f = -1 ∨
        mx_display_format_to_bpp sampleConsts f ∈ ([1, 6, 8, 16, 24, 32] : List Int)) ∧
    mx_display_format_to_bpp sampleConsts sampleConsts.MX_DISPLAY_FORMAT_RGB_565 = 16 ∧
    mx_display_format_to_bpp sampleConsts sampleConsts.MX_DISPLAY_FORMAT_RGB_332 = 8 ∧
    mx_display_format_to_bpp sampleConsts sampleConsts.MX_DISPLAY_FORMAT_RGB_2220 = 6 ∧
    mx_display_format_to_bpp sampleConsts sampleConsts.MX_DISPLAY_FORMAT_ARGB_8888 = 32 ∧
    mx_display_format_to_bpp sampleConsts sampleConsts.MX_DISPLAY_FORMAT_RGB_x888 = 24 ∧
    mx_display_format_to_bpp sampleConsts sampleConsts.MX_DISPLAY_FORMAT_MONO_1 = 1 ∧
    mx_display_format_to_bpp sampleConsts sampleConsts.MX_DISPLAY_FORMAT_MONO_8 = 8 ∧
    (∀ f, f ∉ sampleConsts.caseLabels → mx_display_format_to_bpp sampleConsts f = -1) ∧
    (∀ f, supported sampleConsts f ↔ f ∈ sampleConsts.caseLabels)) :=
  ⟨by decide, mx_display_format_to_bpp_table sampleConsts (by decide)⟩

/-! ## Operations that do not program the hardware -/

/-- C10. `bochs_vbe_get_mode`, `bochs_vbe_get_framebuffer` and
`bochs_vbe_release` leave the stored mode unchanged and make no register
store; `bochs_vbe_get_mode` returns `NO_ERROR` with a copy of the stored mode,
`bochs_vbe_get_framebuffer` returns `NO_ERROR` with the mapped framebuffer
base. -/
theorem readers_and_release_keep_mode (c : Consts) (dev : bochs_vbe_device_t) :
    ((bochs_vbe_get_mode c dev).dev.info = dev.info ∧
      registerWrites (bochs_vbe_get_mode c dev).trace = [] ∧
      (bochs_vbe_get_mode c dev).ret = Except.ok (c.NO_ERROR, dev.info)) ∧
    ((bochs_vbe_get_framebuffer c dev).dev.info = dev.info ∧
      registerWrites (bochs_vbe_get_framebuffer c dev).trace = [] ∧
      (bochs_vbe_get_framebuffer c dev).ret = Except.ok (c.NO_ERROR, dev.framebuffer)) ∧
    ((bochs_vbe_release c dev).dev.info = dev.info ∧
      registerWrites (bochs_vbe_release c dev).trace = []) := by
  refine ⟨⟨rfl, rfl, rfl⟩, ⟨rfl, rfl, rfl⟩, ?_, ?_⟩
  · unfold bochs_vbe_release
    by_cases h1 : dev.regs = 0 <;> by_cases h2 : dev.framebuffer = 0 <;> simp [h1, h2]
  · unfold bochs_vbe_release
    by_cases h1 : dev.regs = 0 <;> by_cases h2 : dev.framebuffer = 0 <;>
      simp [h1, h2, registerWrites]

/-! ## Programming a mode -/

/-- C1, as stated, fails: for the supported 8-bit mode of 64 by 64 pixels on a
16 MiB framebuffer the quotient `framebuffer_size / stride` is 262144, the
value stored to `VIRT_HEIGHT` is 0, and the calls differ from the listed
sequence. -/
theorem set_mode_sequence_counterexample :
    supported sampleConsts smallMode.format ∧
    sampleDevice.framebuffer_size / smallMode.stride = 262144 ∧
    valuesWritten sampleDevice.regs BOCHS_VBE_DISPI_VIRT_HEIGHT
      (bochs_vbe_set_mode sampleConsts sampleDevice smallMode).trace = [0] ∧
    (bochs_vbe_set_mode sampleConsts sampleDevice smallMode).trace ≠
      specSequence { sampleDevice with info := smallMode }
        (mx_display_format_to_bpp sampleConsts smallMode.format).toNat := by
  decide

/-- C1, amended. For a supported format and a non-zero stride,
`bochs_vbe_set_mode` makes exactly these calls in this order: ten register
stores, each of the low 16 bits of its value (ENABLE=0, BPP=bit depth,
XRES=width, YRES=height, BANK=0, VIRT_WIDTH=stride,
VIRT_HEIGHT=framebuffer_size/stride, X_OFFSET=0, Y_OFFSET=0, ENABLE=0x41),
then the framebuffer notification; when width, height, stride and the quotient
are below 65536 this is the listed sequence with the values themselves. -/
theorem set_mode_register_sequence (c : Consts) (dev : bochs_vbe_device_t)
    (info : mx_display_info_t) (hf : supported c info.format) (hs : info.stride ≠ 0) :
    (bochs_vbe_set_mode c dev info).trace =
      [ Event.write16 (dev.regs + 0x508) 0,
        Event.write16 (dev.regs + 0x506) (mx_display_format_to_bpp c info.format).toNat,
        Event.write16 (dev.regs + 0x502) (info.width % 65536),
        Event.write16 (dev.regs + 0x504) (info.height % 65536),
        Event.write16 (dev.regs + 0x50a) 0,
        Event.write16 (dev.regs + 0x50c) (info.stride % 65536),
        Event.write16 (dev.regs + 0x50e) (dev.framebuffer_size / info.stride % 65536),
        Event.write16 (dev.regs + 0x510) 0,
        Event.write16 (dev.regs + 0x512) 0,
        Event.write16 (dev.regs + 0x508) 0x41,
        Event.set_framebuffer dev.framebuffer dev.framebuffer_size
          info.format info.width info.height info.stride ] ∧
    (info.width < 65536 → info.height < 65536 → info.stride < 65536 →
      dev.framebuffer_size / info.stride < 65536 →
      (bochs_vbe_set_mode c dev info).trace =
        specSequence { dev with info := info }
          (mx_display_format_to_bpp c info.format).toNat) := by
  have h := set_hw_mode_ok c { dev with info := info } hf hs
  simp only at h
  constructor
  · simp [bochs_vbe_set_mode, h]
  · intro hw hh hst hq
    simp [bochs_vbe_set_mode, h, specSequence, Nat.mod_eq_of_lt hw, Nat.mod_eq_of_lt hh,
      Nat.mod_eq_of_lt hst, Nat.mod_eq_of_lt hq]

/-- C1, amended, at the scenario mode on the sample device. -/
theorem set_mode_register_sequence_witness :
    supported sampleConsts scenarioMode.format ∧ scenarioMode.stride ≠ 0 ∧
    ((bochs_vbe_set_mode sampleConsts sampleDevice scenarioMode).trace =
      [ Event.write16 (sampleDevice.regs + 0x508) 0,
        Event.write16 (sampleDevice.regs + 0x506)
          (mx_display_format_to_bpp sampleConsts scenarioMode.format).toNat,
        Event.write16 (sampleDevice.regs + 0x502) (scenarioMode.width % 65536),
        Event.write16 (sampleDevice.regs + 0x504) (scenarioMode.height % 65536),
        Event.write16 (sampleDevice.regs + 0x50a) 0,
        Event.write16 (sampleDevice.regs + 0x50c) (scenarioMode.stride % 65536),
        Event.write16 (sampleDevice.regs + 0x50e)
          (sampleDevice.framebuffer_size / scenarioMode.stride % 65536),
        Event.write16 (sampleDevice.regs + 0x510) 0,
        Event.write16 (sampleDevice.regs + 0x512) 0,
        Event.write16 (sampleDevice.regs + 0x508) 0x41,
        Event.set_framebuffer sampleDevice.framebuffer sampleDevice.framebuffer_size
          scenarioMode.format scenarioMode.width scenarioMode.height scenarioMode.stride ] ∧
    (scenarioMode.width < 65536 → scenarioMode.height < 65536 →
      scenarioMode.stride < 65536 →
      sampleDevice.framebuffer_size / scenarioMode.stride < 65536 →
      (bochs_vbe_set_mode sampleConsts sampleDevice scenarioMode).trace =
        specSequence { sampleDevice with info := scenarioMode }
          (mx_display_format_to_bpp sampleConsts scenarioMode.format).toNat)) :=
  ⟨by decide, by decide,
    set_mode_register_sequence sampleConsts sampleDevice scenarioMode (by decide) (by decide)⟩

/-- C2, as stated, fails: the descriptor with a supported format and stride
zero makes `bochs_vbe_set_mode` divide by zero instead of returning
`NO_ERROR`. -/
theorem set_mode_get_mode_counterexample :
    supported sampleConsts emptyMode.format ∧
    (bochs_vbe_set_mode sampleConsts sampleDevice emptyMode).ret =
      Except.error Fault.division_by_zero ∧
    (bochs_vbe_set_mode sampleConsts sampleDevice emptyMode).ret ≠
      Except.ok sampleConsts.NO_ERROR := by
  refine ⟨by decide, rfl, ?_⟩
  intro h
  cases h

/-- C2, amended. For a supported format and a non-zero stride,
`bochs_vbe_set_mode` returns `NO_ERROR` and a following `bochs_vbe_get_mode`
returns `NO_ERROR` with the descriptor that was requested. -/
theorem set_mode_get_mode_roundtrip (c : Consts) (dev : bochs_vbe_device_t)
    (info : mx_display_info_t) (hf : supported c info.format) (hs : info.stride ≠ 0) :
    (bochs_vbe_set_mode c dev info).ret = Except.ok c.NO_ERROR ∧
    (bochs_vbe_get_mode c (bochs_vbe_set_mode c dev info).dev).ret =
      Except.ok (c.NO_ERROR, info) := by
  have h := set_hw_mode_ok c { dev with info := info } hf hs
  simp only at h
  simp [bochs_vbe_set_mode, bochs_vbe_get_mode, h]

/-- C2, amended, at the scenario mode on the sample device. -/
theorem set_mode_get_mode_roundtrip_witness :
    supported sampleConsts scenarioMode.format ∧ scenarioMode.stride ≠ 0 ∧
    ((bochs_vbe_set_mode sampleConsts sampleDevice scenarioMode).ret =
        Except.ok sampleConsts.NO_ERROR ∧
      (bochs_vbe_get_mode sampleConsts
          (bochs_vbe_set_mode sampleConsts sampleDevice scenarioMode).dev).ret =
        Except.ok (sampleConsts.NO_ERROR, scenarioMode)) :=
  ⟨by decide, by decide,
    set_mode_get_mode_roundtrip sampleConsts sampleDevice scenarioMode (by decide) (by decide)⟩

/-- C3, as stated, fails: with the unsupported format 99 the stored mode after
`bochs_vbe_set_mode` is the requested descriptor, not the mode stored
before. -/
theorem set_mode_unsupported_counterexample :
    ¬ supported sampleConsts unknownFormatMode.format ∧
    (bochs_vbe_set_mode sampleConsts sampleDevice unknownFormatMode).dev.info =
      unknownFormatMode ∧
    (bochs_vbe_set_mode sampleConsts sampleDevice unknownFormatMode).dev.info ≠
      sampleDevice.info := by
  decide

/-- C3, amended. For an unsupported format `bochs_vbe_set_mode` does not
return a status: it stops at the assertion of `set_hw_mode`, having made no
register store and no other call; the device record is the old one with the
requested descriptor copied in. -/
theorem set_mode_unsupported (c : Consts) (dev : bochs_vbe_device_t)
    (info : mx_display_info_t) (hf : ¬ supported c info.format) :
    (bochs_vbe_set_mode c dev info).ret = Except.error Fault.assertion ∧
    (bochs_vbe_set_mode c dev info).trace = [] ∧
    registerWrites (bochs_vbe_set_mode c dev info).trace = [] ∧
    (bochs_vbe_set_mode c dev info).dev = { dev with info := info } := by
  have h := set_hw_mode_unsupported c { dev with info := info } hf
  simp [bochs_vbe_set_mode, h, registerWrites]

/-- C3, amended, at format 99 on the sample device. -/
theorem set_mode_unsupported_witness :
    ¬ supported sampleConsts unknownFormatMode.format ∧
    ((bochs_vbe_set_mode sampleConsts sampleDevice unknownFormatMode).ret =
        Except.error Fault.assertion ∧
      (bochs_vbe_set_mode sampleConsts sampleDevice unknownFormatMode).trace = [] ∧
      registerWrites
        (bochs_vbe_set_mode sampleConsts sampleDevice unknownFormatMode).trace = [] ∧
      (bochs_vbe_set_mode sampleConsts sampleDevice unknownFormatMode).dev =
        { sampleDevice with info := unknownFormatMode }) :=
  ⟨by decide, set_mode_unsupported sampleConsts sampleDevice unknownFormatMode (by decide)⟩

/-! ## The virtual height -/

/-- The stores `set_hw_mode` makes to `VIRT_HEIGHT` and `VIRT_WIDTH` span at
most `framebuffer_size` pixels: lines times stride does not exceed the byte
size of the window. -/
theorem virtual_area_le_framebuffer_size (c : Consts) (dev : bochs_vbe_device_t)
    (hf : supported c dev.info.format) (hs : dev.info.stride ≠ 0) :
    ∃ vh vw,
      valuesWritten dev.regs BOCHS_VBE_DISPI_VIRT_HEIGHT (set_hw_mode c dev).1 = [vh] ∧
      valuesWritten dev.regs BOCHS_VBE_DISPI_VIRT_WIDTH (set_hw_mode c dev).1 = [vw] ∧
      vh * vw ≤ dev.framebuffer_size := by
  refine ⟨dev.framebuffer_size / dev.info.stride % 65536, dev.info.stride % 65536, ?_, ?_, ?_⟩
  · simp [set_hw_mode_ok c dev hf hs, valuesWritten, BOCHS_VBE_DISPI_VIRT_HEIGHT,
      Nat.shiftLeft_eq]
  · simp [set_hw_mode_ok c dev hf hs, valuesWritten, BOCHS_VBE_DISPI_VIRT_WIDTH,
      Nat.shiftLeft_eq]
  · calc dev.framebuffer_size / dev.info.stride % 65536 * (dev.info.stride % 65536)
        ≤ dev.framebuffer_size / dev.info.stride * dev.info.stride :=
          Nat.mul_le_mul (Nat.mod_le _ _) (Nat.mod_le _ _)
      _ ≤ dev.framebuffer_size := Nat.div_mul_le_self _ _

/-- C6, as stated, fails: for the supported mode of 200 by 100 pixels with
stride 200 (stride >= width) on a 16 MiB framebuffer, the quotient
`framebuffer_size / stride` is 83886 and the value stored to `VIRT_HEIGHT` is
18350. -/
theorem virt_height_counterexample :
    supported sampleConsts mode200.format ∧ mode200.width ≤ mode200.stride ∧
    sampleDevice.framebuffer_size / mode200.stride = 83886 ∧
    valuesWritten sampleDevice.regs BOCHS_VBE_DISPI_VIRT_HEIGHT
      (set_hw_mode sampleConsts { sampleDevice with info := mode200 }).1 = [18350] := by
  decide

/-- C6, amended. For a supported format and a non-zero stride, `set_hw_mode`
stores to `VIRT_HEIGHT` once, and the value stored is
`framebuffer_size / stride` modulo 65536; it is the quotient itself exactly
when the quotient is below 65536. -/
theorem virt_height_value (c : Consts) (dev : bochs_vbe_device_t)
    (hf : supported c dev.info.format) (hs : dev.info.stride ≠ 0) :
    valuesWritten dev.regs BOCHS_VBE_DISPI_VIRT_HEIGHT (set_hw_mode c dev).1 =
      [dev.framebuffer_size / dev.info.stride % 65536] ∧
    (valuesWritten dev.regs BOCHS_VBE_DISPI_VIRT_HEIGHT (set_hw_mode c dev).1 =
        [dev.framebuffer_size / dev.info.stride] ↔
      dev.framebuffer_size / dev.info.stride < 65536) := by
  have h : valuesWritten dev.regs BOCHS_VBE_DISPI_VIRT_HEIGHT (set_hw_mode c dev).1 =
      [dev.framebuffer_size / dev.info.stride % 65536] := by
    simp [set_hw_mode_ok c dev hf hs, valuesWritten, BOCHS_VBE_DISPI_VIRT_HEIGHT,
      Nat.shiftLeft_eq]
  refine ⟨h, ?_⟩
  rw [h]
  constructor
  · intro he
    have he2 : dev.framebuffer_size / dev.info.stride % 65536 =
        dev.framebuffer_size / dev.info.stride := by simpa using he
    omega
  · intro hlt
    rw [Nat.mod_eq_of_lt hlt]

/-- C6, amended, at the default mode on the sample device. -/
theorem virt_height_value_witness :
    supported sampleConsts sampleDevice.info.format ∧ sampleDevice.info.stride ≠ 0 ∧
    (valuesWritten sampleDevice.regs BOCHS_VBE_DISPI_VIRT_HEIGHT
        (set_hw_mode sampleConsts sampleDevice).1 =
        [sampleDevice.framebuffer_size / sampleDevice.info.stride % 65536] ∧
      (valuesWritten sampleDevice.regs BOCHS_VBE_DISPI_VIRT_HEIGHT
          (set_hw_mode sampleConsts sampleDevice).1 =
          [sampleDevice.framebuffer_size / sampleDevice.info.stride] ↔
        sampleDevice.framebuffer_size / sampleDevice.info.stride < 65536)) :=
  ⟨by decide, by decide, virt_height_value sampleConsts sampleDevice (by decide) (by decide)⟩

/-- C7. The scenario on the code: `RGB_565`, 1024 by 768, stride 1024, on a
framebuffer window of `1024*768*2` bytes stores BPP=16, XRES=1024, YRES=768,
VIRT_WIDTH=1024, ENABLE=0 then 0x41, and VIRT_HEIGHT=1536 (not 768). -/
theorem scenario_register_values :
    scenarioDevice.framebuffer_size = 1572864 ∧
    (bochs_vbe_set_mode sampleConsts scenarioDevice scenarioMode).ret =
      Except.ok sampleConsts.NO_ERROR ∧
    valuesWritten scenarioDevice.regs BOCHS_VBE_DISPI_BPP
      (bochs_vbe_set_mode sampleConsts scenarioDevice scenarioMode).trace = [16] ∧
    valuesWritten scenarioDevice.regs BOCHS_VBE_DISPI_XRES
      (bochs_vbe_set_mode sampleConsts scenarioDevice scenarioMode).trace = [1024] ∧
    valuesWritten scenarioDevice.regs BOCHS_VBE_DISPI_YRES
      (bochs_vbe_set_mode sampleConsts scenarioDevice scenarioMode).trace = [768] ∧
    valuesWritten scenarioDevice.regs BOCHS_VBE_DISPI_VIRT_WIDTH
      (bochs_vbe_set_mode sampleConsts scenarioDevice scenarioMode).trace = [1024] ∧
    valuesWritten scenarioDevice.regs BOCHS_VBE_DISPI_VIRT_HEIGHT
      (bochs_vbe_set_mode sampleConsts scenarioDevice scenarioMode).trace = [1536] ∧
    valuesWritten scenarioDevice.regs BOCHS_VBE_DISPI_ENABLE
      (bochs_vbe_set_mode sampleConsts scenarioDevice scenarioMode).trace = [0, 0x41] := by
  refine ⟨by decide, rfl, ?_, ?_, ?_, ?_, ?_, ?_⟩ <;> decide

/-- C8. The default mode (`RGB_565`, stride 1024) on a 16 MiB framebuffer:
the code stores VIRT_HEIGHT=16384, VIRT_WIDTH=1024 and BPP=16, so the
programmed geometry takes `16384 * 1024 * 16` bits, twice the `8 * 16777216`
bits of the window. -/
theorem virtual_geometry_exceeds_framebuffer :
    supported sampleConsts sampleDevice.info.format ∧
    sampleDevice.info.width ≤ sampleDevice.info.stride ∧
    valuesWritten sampleDevice.regs BOCHS_VBE_DISPI_VIRT_HEIGHT
      (set_hw_mode sampleConsts sampleDevice).1 = [16384] ∧
    valuesWritten sampleDevice.regs BOCHS_VBE_DISPI_VIRT_WIDTH
      (set_hw_mode sampleConsts sampleDevice).1 = [1024] ∧
    valuesWritten sampleDevice.regs BOCHS_VBE_DISPI_BPP
      (set_hw_mode sampleConsts sampleDevice).1 = [16] ∧
    ¬ (16384 * 1024 * 16 ≤ 8 * sampleDevice.framebuffer_size) := by
  decide

/-! ## Teardown and attach failure -/

/-- Two calls of `bochs_vbe_release` on the sample device (both windows
mapped, handles 3 and 4): the first closes 3 and 4 and stores `-1` in both
handle fields; the second passes the value `-1` to `mx_handle_close` twice. -/
theorem release_twice_on_sample :
    handlesClosed (bochs_vbe_release sampleConsts sampleDevice).trace = [3, 4] ∧
    (bochs_vbe_release sampleConsts sampleDevice).dev.regs_handle = -1 ∧
    (bochs_vbe_release sampleConsts sampleDevice).dev.framebuffer_handle = -1 ∧
    handlesClosed
      (bochs_vbe_release sampleConsts
        (bochs_vbe_release sampleConsts sampleDevice).dev).trace = [-1, -1] := by
  decide

/-- C5. On a device with both windows mapped (non-null pointers, two different
valid handles), two calls of `bochs_vbe_release` in sequence pass the
register-window handle to `mx_handle_close` exactly once and the
framebuffer-window handle exactly once over both calls, and no handle the
second call passes to `mx_handle_close` was closed by the first call; the
first call leaves `-1` in both handle fields. -/
theorem release_twice_closes_each_handle_once (c : Consts) (dev : bochs_vbe_device_t)
    (hr : dev.regs ≠ 0) (hb : dev.framebuffer ≠ 0)
    (hrh : 0 ≤ dev.regs_handle) (hbh : 0 ≤ dev.framebuffer_handle)
    (hne : dev.regs_handle ≠ dev.framebuffer_handle) :
    (handlesClosed (bochs_vbe_release c dev).trace ++
        handlesClosed (bochs_vbe_release c (bochs_vbe_release c dev).dev).trace).count
      dev.regs_handle = 1 ∧
    (handlesClosed (bochs_vbe_release c dev).trace ++
        handlesClosed (bochs_vbe_release c (bochs_vbe_release c dev).dev).trace).count
      dev.framebuffer_handle = 1 ∧
    (∀ h ∈ handlesClosed (bochs_vbe_release c (bochs_vbe_release c dev).dev).trace,
      h ∉ handlesClosed (bochs_vbe_release c dev).trace) ∧
    (bochs_vbe_release c dev).dev.regs_handle = -1 ∧
    (bochs_vbe_release c dev).dev.framebuffer_handle = -1 := by
  obtain ⟨e1, e2⟩ := release_then_release c dev hr hb
  have n1 : (-1 : Int) ≠ dev.regs_handle := by omega
  have n2 : (-1 : Int) ≠ dev.framebuffer_handle := by omega
  rw [e1, e2]
  refine ⟨?_, ?_, ?_, ?_, ?_⟩
  · simp [List.count_cons, hne.symm, n1]
  · simp [List.count_cons, hne, n2]
  · intro h hh
    simp only [List.mem_cons, List.mem_singleton, List.not_mem_nil, or_false, or_self] at hh
    subst hh
    simp [n1, n2]
  · simp [bochs_vbe_release, hr, hb]
  · simp [bochs_vbe_release, hr, hb]

/-- C5, on the sample device (handles 3 and 4). -/
theorem release_twice_closes_each_handle_once_witness :
    sampleDevice.regs ≠ 0 ∧ sampleDevice.framebuffer ≠ 0 ∧
    0 ≤ sampleDevice.regs_handle ∧ 0 ≤ sampleDevice.framebuffer_handle ∧
    sampleDevice.regs_handle ≠ sampleDevice.framebuffer_handle ∧
    ((handlesClosed (bochs_vbe_release sampleConsts sampleDevice).trace ++
        handlesClosed (bochs_vbe_release sampleConsts
          (bochs_vbe_release sampleConsts sampleDevice).dev).trace).count
      sampleDevice.regs_handle = 1 ∧
    (handlesClosed (bochs_vbe_release sampleConsts sampleDevice).trace ++
        handlesClosed (bochs_vbe_release sampleConsts
          (bochs_vbe_release sampleConsts sampleDevice).dev).trace).count
      sampleDevice.framebuffer_handle = 1 ∧
    (∀ h ∈ handlesClosed (bochs_vbe_release sampleConsts
          (bochs_vbe_release sampleConsts sampleDevice).dev).trace,
      h ∉ handlesClosed (bochs_vbe_release sampleConsts sampleDevice).trace) ∧
    (bochs_vbe_release sampleConsts sampleDevice).dev.regs_handle = -1 ∧
    (bochs_vbe_release sampleConsts sampleDevice).dev.framebuffer_handle = -1) :=
  ⟨by decide, by decide, by decide, by decide, by decide,
    release_twice_closes_each_handle_once sampleConsts sampleDevice
      (by decide) (by decide) (by decide) (by decide) (by decide)⟩

/-- C4. Attach where the claim and the register window succeed and mapping
the framebuffer window fails with `-1`: `bochs_vbe_bind` returns `-1`, makes no
`device_init` and no `device_add` call, adds no device, and makes no
`mx_handle_close` call, so the register-window handle 3 stays open. -/
theorem bind_framebuffer_failure_leaks_regs_handle :
    (bochs_vbe_bind sampleConsts framebufferMapFails).ret = Except.ok (-1) ∧
    (bochs_vbe_bind sampleConsts framebufferMapFails).trace =
      [ Event.device_get_protocol, Event.claim_device, Event.calloc,
        Event.map_mmio 2 CachePolicy.MX_CACHE_POLICY_UNCACHED_DEVICE,
        Event.map_mmio 0 CachePolicy.MX_CACHE_POLICY_WRITE_COMBINING,
        Event.free ] ∧
    handlesClosed (bochs_vbe_bind sampleConsts framebufferMapFails).trace = [] ∧
    (bochs_vbe_bind sampleConsts framebufferMapFails).added = none := by
  refine ⟨rfl, by decide, by decide, rfl⟩

end BochsVbe
